import Mathlib

/-!
Shallow embedding of `src/frontend/src/app/components/KnowledgeLayerDashboard.js`
(a React component) and proofs about its route-graph construction, DOT
serialization, message-channel correlation, and clipboard fallback.

Conventions of the embedding:
* JS objects become structures; `null`/absent values become `Option`.
* The three channel-adapter capabilities (`sendMessage`,
  `registerMessageHandler`, `deregisterMessageHandler`) are props that may or
  may not be supplied; only their presence matters for control flow, so they
  are modelled as Booleans in `Capabilities`.
* Side effects (messages sent over the channel, console diagnostics, DOM
  actions) are returned explicitly as lists, in execution order.
* React state hooks become the explicit record `DashboardState`; event
  handlers become functions `Capabilities → state → state × effects`.
-/

namespace KnowledgeLayerDashboard

/-- A related-route entry of a route: `\x7b pattern, relationship \x7d`. -/
structure RelatedRoute where
  pattern : String
  relationship : String
deriving DecidableEq, Repr

/-- A top-level explainer route: `\x7b pattern, related \x7d`. -/
structure Route where
  pattern : String
  related : List RelatedRoute
deriving DecidableEq, Repr

/-- The `get_routes` response payload: `\x7b explainer_routes: [...] \x7d`. -/
structure RouteSet where
  explainer_routes : List Route
deriving DecidableEq, Repr

/-- A directed edge of the explainer graph (source lines 58-62). -/
structure Edge where
  source : String
  target : String
  label : String
deriving DecidableEq, Repr

/-- The node/edge model built by `generateRouteDotGraph` (source lines 51-64). -/
structure Graph where
  nodes : List String
  edges : List Edge
deriving DecidableEq, Repr

/-- The component's React state (source lines 8-10):
`knowledgeQueryInput` starts as `""`, `knowledgeLayerRoutes` starts as `null`,
`knowledgeQueryResponse` starts as `""`. -/
structure DashboardState where
  knowledgeQueryInput : String
  knowledgeLayerRoutes : Option RouteSet
  knowledgeQueryResponse : String
deriving DecidableEq, Repr

/-- Initial state from the `useState` initializers on source lines 8-10. -/
def initialState : DashboardState :=
  { knowledgeQueryInput := ""
    knowledgeLayerRoutes := none
    knowledgeQueryResponse := "" }

/-- Presence of the three channel-adapter props (source lines 3-7).
Only presence/absence influences control flow in the component. -/
structure Capabilities where
  sendMessage : Bool
  registerMessageHandler : Bool
  deregisterMessageHandler : Bool
deriving DecidableEq, Repr

/-- A message sent through `sendMessage(namespace, action, payload?)`. -/
structure Message where
  namespace_ : String
  action : String
  payload : Option String
deriving DecidableEq, Repr

/-- Console diagnostics emitted by the component, one constructor per
distinct `console.error` site. -/
inductive Diagnostic where
  | missingRegisterCapability
  | missingDeregisterCapability
  | notConnected
  | emptyInput
  | dataUnavailable
  | clipboardFailure
deriving DecidableEq, Repr

/-- Shallow embedding of the JS `String.prototype.trim` used on source lines
112 and 119: strip leading and trailing whitespace characters. -/
def jsTrim (s : String) : String :=
  ⟨((s.data.dropWhile Char.isWhitespace).reverse.dropWhile Char.isWhitespace).reverse⟩

/-- The push of one edge in the inner `forEach` of `generateRouteDotGraph`
(source lines 57-63). -/
def pushEdge (explainerRoute : Route) (g : Graph) (relatedRoute : RelatedRoute) : Graph :=
  { g with
    edges := g.edges ++
      [{ source := explainerRoute.pattern
         target := relatedRoute.pattern
         label := relatedRoute.relationship }] }

/-- The body of the outer `forEach` of `generateRouteDotGraph` (source lines
54-64): push the route's pattern onto the node array, then push one edge per
`related` entry. -/
def visitRoute (g : Graph) (explainerRoute : Route) : Graph :=
  explainerRoute.related.foldl (pushEdge explainerRoute)
    { g with nodes := g.nodes ++ [explainerRoute.pattern] }

/-- Graph construction loop of `generateRouteDotGraph` (source lines 51-64):
one pass over `explainer_routes`, starting from empty node and edge arrays. -/
def buildGraph (rs : RouteSet) : Graph :=
  rs.explainer_routes.foldl visitRoute { nodes := [], edges := [] }

/-- DOT serialization loop of `generateRouteDotGraph` (source lines 70-79):
string accumulation, one line per node then one line per edge. -/
def serializeDot (g : Graph) : String :=
  let dot := "digraph KnowledgeRoutes \x7b\n"
  let dot := g.nodes.foldl
    (fun acc node => acc ++ "  \"" ++ node ++ "\";\n") dot
  let dot := g.edges.foldl
    (fun acc edge =>
      acc ++ "  \"" ++ edge.source ++ "\" -> \"" ++ edge.target ++
        "\" [label=\"" ++ edge.label ++ "\"];\n") dot
  dot ++ "\x7d\n"

/-- Concatenation of one string per list element, in list order. -/
def concatMapStr (f : α → String) : List α → String
  | [] => ""
  | x :: xs => f x ++ concatMapStr f xs

/-- The node line of the DOT output as the spec describes it:
`  "<node>";` followed by a newline. -/
def nodeLineSpec (node : String) : String :=
  "  \"" ++ node ++ "\";\n"

/-- The edge line of the DOT output as the spec describes it:
`  "<source>" -> "<target>" [label="<label>"];` followed by a newline. -/
def edgeLineSpec (edge : Edge) : String :=
  "  \"" ++ edge.source ++ "\" -> \"" ++ edge.target ++
    "\" [label=\"" ++ edge.label ++ "\"];\n"

/-- The DOT text as the spec describes it: the header line, then one node
line per node in `Graph.nodes` order, then one edge line per edge in
`Graph.edges` order, then the closing line. -/
def dotTextSpec (g : Graph) : String :=
  "digraph KnowledgeRoutes \x7b\n" ++
    concatMapStr nodeLineSpec g.nodes ++
    concatMapStr edgeLineSpec g.edges ++ "\x7d\n"

/-- The result of running one event-handler body: the next component state,
the messages sent through `sendMessage`, and the diagnostics logged. -/
structure OpResult where
  state : DashboardState
  sent : List Message
  diags : List Diagnostic
deriving DecidableEq, Repr

/-- `getKnowledgeRoutes` (source lines 37-43): guard on `sendMessage`, then
send `("knowledge_layer", "get_routes")` with no payload. No state change. -/
def getKnowledgeRoutes (caps : Capabilities) (st : DashboardState) : OpResult :=
  if caps.sendMessage = false then
    { state := st, sent := [], diags := [Diagnostic.notConnected] }
  else
    { state := st
      sent := [{ namespace_ := "knowledge_layer", action := "get_routes", payload := none }]
      diags := [] }

/-- `queryKnowledge` (source lines 107-121): guard on `sendMessage`, then on
the trimmed input being non-empty, then send the trimmed input as the payload
of `("knowledge_layer", "query_knowledge")`. No state change. -/
def queryKnowledge (caps : Capabilities) (st : DashboardState) : OpResult :=
  if caps.sendMessage = false then
    { state := st, sent := [], diags := [Diagnostic.notConnected] }
  else if jsTrim st.knowledgeQueryInput = "" then
    { state := st, sent := [], diags := [Diagnostic.emptyInput] }
  else
    { state := st
      sent := [{ namespace_ := "knowledge_layer", action := "query_knowledge"
                 payload := some (jsTrim st.knowledgeQueryInput) }]
      diags := [] }

/-- `generateRouteDotGraph` (source lines 45-105), up to the clipboard copy:
if `knowledgeLayerRoutes` is `null` it logs an error and returns early,
producing no graph text; otherwise it builds the graph and serializes it.
The produced DOT text (handed to the clipboard) is returned as
`Option String`; no component state is touched on either path. -/
def generateRouteDotGraph (st : DashboardState) :
    DashboardState × Option String × List Diagnostic :=
  match st.knowledgeLayerRoutes with
  | none => (st, none, [Diagnostic.dataUnavailable])
  | some rs => (st, some (serializeDot (buildGraph rs)), [])

/-- One dashboard session: whether the mount effect registered the two
message handlers, plus the component state. -/
structure Session where
  handlersRegistered : Bool
  st : DashboardState
deriving DecidableEq, Repr

/-- The mount effect body (source lines 12-25): if `registerMessageHandler`
is not provided, log an error and return early — no handlers registered and
no cleanup function installed; otherwise register the `get_routes` and
`query_knowledge` handlers and install the cleanup. Returns the session,
whether a cleanup function was installed, and the diagnostics. -/
def mountEffect (caps : Capabilities) : Session × Bool × List Diagnostic :=
  if caps.registerMessageHandler = false then
    ({ handlersRegistered := false, st := initialState }, false,
      [Diagnostic.missingRegisterCapability])
  else
    ({ handlersRegistered := true, st := initialState }, true, [])

/-- The cleanup function returned by the mount effect (source lines 27-34):
deregister both `(knowledge_layer, get_routes)` and
`(knowledge_layer, query_knowledge)` when `deregisterMessageHandler` is
provided, otherwise log an error. Returns the list of deregistered
(namespace, action) keys and the diagnostics. -/
def effectCleanup (caps : Capabilities) :
    List (String × String) × List Diagnostic :=
  if caps.deregisterMessageHandler = false then
    ([], [Diagnostic.missingDeregisterCapability])
  else
    ([("knowledge_layer", "get_routes"), ("knowledge_layer", "query_knowledge")], [])

/-- Session events: the user-driven UI actions and the inbound channel
messages for the two registered (namespace, action) keys. -/
inductive Event where
  | clickGetRoutes
  | clickGenerateGraph
  | typeInput (s : String)
  | clickQuery
  | msgGetRoutes (r : RouteSet)
  | msgQueryKnowledge (response : String)
deriving DecidableEq, Repr

/-- One step of a session. UI actions run the corresponding handler body.
Inbound messages run the callback registered on mount (source lines 17-25):
the `get_routes` callback replaces `knowledgeLayerRoutes` wholesale, the
`query_knowledge` callback replaces `knowledgeQueryResponse`; when the
handlers were never registered the channel drops the message. -/
def step (caps : Capabilities) (sess : Session) : Event → Session × List Message × List Diagnostic
  | Event.clickGetRoutes =>
    let r := getKnowledgeRoutes caps sess.st
    ({ sess with st := r.state }, r.sent, r.diags)
  | Event.clickGenerateGraph =>
    ({ sess with st := (generateRouteDotGraph sess.st).1 }, [],
      (generateRouteDotGraph sess.st).2.2)
  | Event.typeInput s =>
    ({ sess with st := { sess.st with knowledgeQueryInput := s } }, [], [])
  | Event.clickQuery =>
    let r := queryKnowledge caps sess.st
    ({ sess with st := r.state }, r.sent, r.diags)
  | Event.msgGetRoutes r =>
    if sess.handlersRegistered then
      ({ sess with st := { sess.st with knowledgeLayerRoutes := some r } }, [], [])
    else (sess, [], [])
  | Event.msgQueryKnowledge response =>
    if sess.handlersRegistered then
      ({ sess with st := { sess.st with knowledgeQueryResponse := response } }, [], [])
    else (sess, [], [])

/-- Run a list of events from a session, collecting all sent messages and
diagnostics in order. -/
def runTrace (caps : Capabilities) (sess : Session) :
    List Event → Session × List Message × List Diagnostic
  | [] => (sess, [], [])
  | e :: es =>
    let r := step caps sess e
    let rest := runTrace caps r.1 es
    (rest.1, r.2.1 ++ rest.2.1, r.2.2 ++ rest.2.2)

/-- The text rendered in the response area (source line 167): the current
`knowledgeQueryResponse`, verbatim. -/
def renderedResponse (st : DashboardState) : String :=
  st.knowledgeQueryResponse

/-- DOM actions performed by the clipboard fallback (source lines 93-103). -/
inductive DomAction where
  | createTextarea
  | setValue (s : String)
  | appendChild
  | selectContents
  | execCommandCopy
  | removeChild
deriving DecidableEq, Repr

/-- The `try \x7b execCommand \x7d catch` block (source lines 97-102): the
copy command runs either way; a throw is caught and logged, never
propagated. -/
def tryCopyCommand (execCommandThrows : Bool) : List DomAction × List Diagnostic :=
  if execCommandThrows then
    ([DomAction.execCommandCopy], [Diagnostic.clipboardFailure])
  else
    ([DomAction.execCommandCopy], [])

/-- The clipboard fallback branch (source lines 92-104): create a textarea,
fill it with the DOT text, append it to the body, select it, attempt the
copy command inside `try/catch`, then remove the textarea. `removeChild`
is outside the `try/catch`, after it. -/
def clipboardFallback (dot : String) (execCommandThrows : Bool) :
    List DomAction × List Diagnostic :=
  let setup := [DomAction.createTextarea, DomAction.setValue dot,
                DomAction.appendChild, DomAction.selectContents]
  let attempt := tryCopyCommand execCommandThrows
  (setup ++ attempt.1 ++ [DomAction.removeChild], attempt.2)

/-- The edges contributed by one route, in `related` order. -/
def routeEdges (explainerRoute : Route) : List Edge :=
  explainerRoute.related.map
    (fun relatedRoute =>
      { source := explainerRoute.pattern
        target := relatedRoute.pattern
        label := relatedRoute.relationship })

lemma pushEdge_foldl (r : Route) (rels : List RelatedRoute) :
    ∀ g : Graph, rels.foldl (pushEdge r) g
      = { g with
          edges := g.edges ++ rels.map
            (fun relatedRoute =>
              { source := r.pattern
                target := relatedRoute.pattern
                label := relatedRoute.relationship }) } := by
  induction rels with
  | nil => intro g; simp
  | cons x t ih =>
    intro g
    rw [List.foldl_cons, ih]
    simp [pushEdge, List.append_assoc]

lemma visitRoute_eq (g : Graph) (r : Route) :
    visitRoute g r
      = { nodes := g.nodes ++ [r.pattern], edges := g.edges ++ routeEdges r } := by
  unfold visitRoute
  rw [pushEdge_foldl]
  rfl

lemma buildGraph_foldl (routes : List Route) :
    ∀ g : Graph, routes.foldl visitRoute g
      = { nodes := g.nodes ++ routes.map Route.pattern
          edges := g.edges ++ (routes.map routeEdges).flatten } := by
  induction routes with
  | nil => intro g; simp
  | cons r t ih =>
    intro g
    rw [List.foldl_cons, visitRoute_eq, ih]
    simp [List.append_assoc]

lemma buildGraph_eq (rs : RouteSet) :
    buildGraph rs
      = { nodes := rs.explainer_routes.map Route.pattern
          edges := (rs.explainer_routes.map routeEdges).flatten } := by
  unfold buildGraph
  rw [buildGraph_foldl]
  simp

lemma nodes_foldl_eq (nodes : List String) :
    ∀ init : String,
      nodes.foldl (fun acc node => acc ++ "  \"" ++ node ++ "\";\n") init
        = init ++ concatMapStr nodeLineSpec nodes := by
  induction nodes with
  | nil => intro init; simp [concatMapStr, String.append_empty]
  | cons n t ih =>
    intro init
    rw [List.foldl_cons, ih]
    simp [concatMapStr, nodeLineSpec, String.append_assoc]

lemma edges_foldl_eq (edges : List Edge) :
    ∀ init : String,
      edges.foldl
        (fun acc edge =>
          acc ++ "  \"" ++ edge.source ++ "\" -> \"" ++ edge.target ++
            "\" [label=\"" ++ edge.label ++ "\"];\n") init
        = init ++ concatMapStr edgeLineSpec edges := by
  induction edges with
  | nil => intro init; simp [concatMapStr, String.append_empty]
  | cons e t ih =>
    intro init
    rw [List.foldl_cons, ih]
    simp [concatMapStr, edgeLineSpec, String.append_assoc]

lemma serializeDot_eq_spec (g : Graph) : serializeDot g = dotTextSpec g := by
  show (g.edges.foldl _ (g.nodes.foldl _ "digraph KnowledgeRoutes \x7b\n")) ++ "\x7d\n"
    = dotTextSpec g
  rw [nodes_foldl_eq, edges_foldl_eq]
  unfold dotTextSpec
  simp [String.append_assoc]

/-- Claim C1: for every RouteSet, the serialized DOT text is exactly the
header line `digraph KnowledgeRoutes \x7b` plus newline, then one line
`  "<node>";` per node in `Graph.nodes` order, then one line
`  "<source>" -> "<target>" [label="<label>"];` per edge in `Graph.edges`
order, then `\x7d` plus newline, with no escaping beyond the literal quote
wrapping (the line builders interpolate the raw strings); in particular the
empty RouteSet serializes to `digraph KnowledgeRoutes \x7b\n\x7d\n`, and the
spec's one-route example produces exactly its stated text. -/
theorem dot_serialization_format :
    (∀ rs : RouteSet,
        serializeDot (buildGraph rs) = dotTextSpec (buildGraph rs)) ∧
    serializeDot (buildGraph { explainer_routes := [] })
      = "digraph KnowledgeRoutes \x7b\n\x7d\n" ∧
    serializeDot (buildGraph { explainer_routes :=
        [{ pattern := "/a"
           related := [{ pattern := "/b", relationship := "depends_on" }] }] })
      = "digraph KnowledgeRoutes \x7b\n  \"/a\";\n  \"/a\" -> \"/b\" [label=\"depends_on\"];\n\x7d\n" := by
  refine ⟨fun rs => serializeDot_eq_spec (buildGraph rs), by decide, by decide⟩

/-- Claim C2: for every RouteSet, the built graph has one node per top-level
route in input order (duplicates kept), its edges are exactly the per-route
`related` entries mapped to `\x7b source, target, label \x7d` records in
(route order, related order), the node count equals the route count, and the
edge count equals the sum of the `related` lengths. -/
theorem buildGraph_nodes_and_edges (rs : RouteSet) :
    (buildGraph rs).nodes = rs.explainer_routes.map Route.pattern ∧
    (buildGraph rs).edges
      = (rs.explainer_routes.map
          (fun explainerRoute => explainerRoute.related.map
            (fun relatedRoute =>
              { source := explainerRoute.pattern
                target := relatedRoute.pattern
                label := relatedRoute.relationship }))).flatten ∧
    (buildGraph rs).nodes.length = rs.explainer_routes.length ∧
    (buildGraph rs).edges.length
      = (rs.explainer_routes.map (fun r => r.related.length)).sum := by
  rw [buildGraph_eq]
  refine ⟨rfl, rfl, by simp, ?_⟩
  simp only [List.length_flatten, List.map_map]
  have hcomp : (List.length ∘ routeEdges) = fun r : Route => r.related.length := by
    funext r
    simp [Function.comp, routeEdges]
  rw [hcomp]

lemma getKnowledgeRoutes_state (caps : Capabilities) (st : DashboardState) :
    (getKnowledgeRoutes caps st).state = st := by
  unfold getKnowledgeRoutes
  split <;> rfl

lemma queryKnowledge_state (caps : Capabilities) (st : DashboardState) :
    (queryKnowledge caps st).state = st := by
  unfold queryKnowledge
  split
  · rfl
  split <;> rfl

lemma generateRouteDotGraph_state (st : DashboardState) :
    (generateRouteDotGraph st).1 = st := by
  unfold generateRouteDotGraph
  split <;> rfl

lemma mountEffect_state (caps : Capabilities) :
    (mountEffect caps).1.st = initialState := by
  unfold mountEffect
  split <;> rfl

/-- Claim C4: invoking the graph generation while `knowledgeLayerRoutes` is
still `null` reports the data-unavailable diagnostic, produces no graph text,
and leaves the state untouched — it is an early return, not an empty graph. -/
theorem generate_unavailable (st : DashboardState)
    (h : st.knowledgeLayerRoutes = none) :
    generateRouteDotGraph st = (st, none, [Diagnostic.dataUnavailable]) := by
  unfold generateRouteDotGraph
  rw [h]

/-- Witness for C4 at the initial state. -/
theorem generate_unavailable_witness :
    generateRouteDotGraph initialState
      = (initialState, none, [Diagnostic.dataUnavailable]) :=
  generate_unavailable initialState rfl

/-- Claim C3: with the send capability supplied, submitting a query whose
trimmed text is empty sends nothing, reports the empty-input diagnostic and
leaves the state (input and response) unchanged; submitting a query whose
trimmed text is non-empty sends exactly one message to
`(knowledge_layer, query_knowledge)` carrying the trimmed text. -/
theorem query_knowledge_send_discipline (caps : Capabilities)
    (st : DashboardState) (hsend : caps.sendMessage = true) :
    (jsTrim st.knowledgeQueryInput = "" →
        queryKnowledge caps st
          = { state := st, sent := [], diags := [Diagnostic.emptyInput] }) ∧
    (jsTrim st.knowledgeQueryInput ≠ "" →
        queryKnowledge caps st
          = { state := st
              sent := [{ namespace_ := "knowledge_layer"
                         action := "query_knowledge"
                         payload := some (jsTrim st.knowledgeQueryInput) }]
              diags := [] }) := by
  constructor <;> intro h <;> simp [queryKnowledge, hsend, h]

/-- Witness for C3: a whitespace-only input and an input with surrounding
whitespace, both with all capabilities supplied. -/
theorem query_knowledge_send_discipline_witness :
    queryKnowledge ⟨true, true, true⟩
        { knowledgeQueryInput := "   "
          knowledgeLayerRoutes := none
          knowledgeQueryResponse := "" }
      = { state := { knowledgeQueryInput := "   "
                     knowledgeLayerRoutes := none
                     knowledgeQueryResponse := "" }
          sent := [], diags := [Diagnostic.emptyInput] } ∧
    queryKnowledge ⟨true, true, true⟩
        { knowledgeQueryInput := " /a/b "
          knowledgeLayerRoutes := none
          knowledgeQueryResponse := "" }
      = { state := { knowledgeQueryInput := " /a/b "
                     knowledgeLayerRoutes := none
                     knowledgeQueryResponse := "" }
          sent := [{ namespace_ := "knowledge_layer"
                     action := "query_knowledge"
                     payload := some "/a/b" }]
          diags := [] } := by
  refine ⟨(query_knowledge_send_discipline ⟨true, true, true⟩ _ rfl).1 (by decide), ?_⟩
  have h := (query_knowledge_send_discipline ⟨true, true, true⟩
    { knowledgeQueryInput := " /a/b "
      knowledgeLayerRoutes := none
      knowledgeQueryResponse := "" } rfl).2 (by decide)
  rw [h]
  decide

lemma step_sends_nothing (caps : Capabilities) (hsend : caps.sendMessage = false)
    (sess : Session) (e : Event) : (step caps sess e).2.1 = [] := by
  cases e <;>
    simp [step, getKnowledgeRoutes, queryKnowledge, hsend] <;>
    split <;> rfl

lemma runTrace_sends_nothing (caps : Capabilities)
    (hsend : caps.sendMessage = false) :
    ∀ (events : List Event) (sess : Session),
      (runTrace caps sess events).2.1 = [] := by
  intro events
  induction events with
  | nil => intro sess; rfl
  | cons e es ih =>
    intro sess
    simp [runTrace, step_sends_nothing caps hsend, ih]

/-- Counterexample to claim C5: the three adapter capabilities are
independent props, and only `sendMessage` guards sending. In a session
started with `registerMessageHandler` absent but `sendMessage` supplied, the
mount reports the diagnostic, yet clicking "Get Knowledge Routes" still
sends a `get_routes` message — contradicting "neither a get_routes nor a
query_knowledge message is ever sent for the rest of the session". -/
theorem degraded_session_counterexample :
    (mountEffect ⟨true, false, false⟩).2.2
      = [Diagnostic.missingRegisterCapability] ∧
    (runTrace ⟨true, false, false⟩ (mountEffect ⟨true, false, false⟩).1
        [Event.clickGetRoutes]).2.1
      = [{ namespace_ := "knowledge_layer", action := "get_routes", payload := none }] := by
  decide

/-- Claim C5 (amended): when `registerMessageHandler` is not supplied at
session start, a diagnostic is reported and no handlers are registered; the
session is inert — no message ever sent — provided `sendMessage` is also not
supplied, since sending is guarded only by `sendMessage`. -/
theorem degraded_session_inert (caps : Capabilities)
    (hreg : caps.registerMessageHandler = false)
    (hsend : caps.sendMessage = false) (events : List Event) :
    (mountEffect caps).2.2 = [Diagnostic.missingRegisterCapability] ∧
    (mountEffect caps).1.handlersRegistered = false ∧
    (runTrace caps (mountEffect caps).1 events).2.1 = [] := by
  refine ⟨?_, ?_, runTrace_sends_nothing caps hsend events _⟩ <;>
    simp [mountEffect, hreg]

/-- Witness for the amended C5: the adapter wholly absent, a trace that
attempts both kinds of request. -/
theorem degraded_session_inert_witness :
    (mountEffect ⟨false, false, false⟩).2.2
      = [Diagnostic.missingRegisterCapability] ∧
    (mountEffect ⟨false, false, false⟩).1.handlersRegistered = false ∧
    (runTrace ⟨false, false, false⟩ (mountEffect ⟨false, false, false⟩).1
        [Event.clickGetRoutes, Event.typeInput "/a", Event.clickQuery]).2.1 = [] :=
  degraded_session_inert ⟨false, false, false⟩ rfl rfl
    [Event.clickGetRoutes, Event.typeInput "/a", Event.clickQuery]

/-- Claim C6: with the send capability supplied, the get-routes request is
exactly one message to `(knowledge_layer, get_routes)` with no payload and
no state change; and an inbound `get_routes` response delivered to a
registered session replaces `knowledgeLayerRoutes` wholesale with the new
value, whatever was stored before, touching no other field. -/
theorem get_routes_request_and_replacement (caps : Capabilities)
    (st : DashboardState) (sess : Session) (r : RouteSet)
    (hsend : caps.sendMessage = true)
    (hreg : sess.handlersRegistered = true) :
    getKnowledgeRoutes caps st
      = { state := st
          sent := [{ namespace_ := "knowledge_layer", action := "get_routes", payload := none }]
          diags := [] } ∧
    (step caps sess (Event.msgGetRoutes r)).1.st
      = { sess.st with knowledgeLayerRoutes := some r } ∧
    (step caps sess (Event.msgGetRoutes r)) =
      ({ sess with st := { sess.st with knowledgeLayerRoutes := some r } }, [], []) := by
  refine ⟨by simp [getKnowledgeRoutes, hsend], ?_, ?_⟩ <;> simp [step, hreg]

/-- Witness for C6: a session already holding a RouteSet receives a new,
different one; the old value is entirely replaced. -/
theorem get_routes_request_and_replacement_witness :
    getKnowledgeRoutes ⟨true, true, true⟩ initialState
      = { state := initialState
          sent := [{ namespace_ := "knowledge_layer", action := "get_routes", payload := none }]
          diags := [] } ∧
    (step ⟨true, true, true⟩
        { handlersRegistered := true
          st := { knowledgeQueryInput := ""
                  knowledgeLayerRoutes := some { explainer_routes := [{ pattern := "/old", related := [] }] }
                  knowledgeQueryResponse := "" } }
        (Event.msgGetRoutes { explainer_routes := [] })).1.st
      = { knowledgeQueryInput := ""
          knowledgeLayerRoutes := some { explainer_routes := [] }
          knowledgeQueryResponse := "" } := by
  have h := get_routes_request_and_replacement ⟨true, true, true⟩ initialState
    { handlersRegistered := true
      st := { knowledgeQueryInput := ""
              knowledgeLayerRoutes := some { explainer_routes := [{ pattern := "/old", related := [] }] }
              knowledgeQueryResponse := "" } }
    { explainer_routes := [] } rfl rfl
  exact ⟨h.1, h.2.1⟩

/-- Claim C7: whenever registration succeeded at mount, a cleanup function is
installed (so React runs it on every unmount path); the cleanup deregisters
exactly the two keys `(knowledge_layer, get_routes)` and
`(knowledge_layer, query_knowledge)` when the deregistration capability is
supplied, and otherwise deregisters nothing, reports a diagnostic, and still
returns normally (not fatal). -/
theorem teardown_deregisters_both_keys (caps : Capabilities)
    (hreg : caps.registerMessageHandler = true) :
    (mountEffect caps).2.1 = true ∧
    (caps.deregisterMessageHandler = true →
        effectCleanup caps
          = ([("knowledge_layer", "get_routes"), ("knowledge_layer", "query_knowledge")], [])) ∧
    (caps.deregisterMessageHandler = false →
        effectCleanup caps = ([], [Diagnostic.missingDeregisterCapability])) := by
  refine ⟨by simp [mountEffect, hreg], ?_, ?_⟩ <;>
    intro h <;> simp [effectCleanup, h]

/-- Witness for C7: both the full-capability session and the session missing
only the deregistration capability. -/
theorem teardown_deregisters_both_keys_witness :
    effectCleanup ⟨true, true, true⟩
      = ([("knowledge_layer", "get_routes"), ("knowledge_layer", "query_knowledge")], []) ∧
    ((mountEffect ⟨true, true, false⟩).2.1 = true ∧
      effectCleanup ⟨true, true, false⟩ = ([], [Diagnostic.missingDeregisterCapability])) :=
  ⟨(teardown_deregisters_both_keys ⟨true, true, true⟩ rfl).2.1 rfl,
   (teardown_deregisters_both_keys ⟨true, true, false⟩ rfl).1,
   (teardown_deregisters_both_keys ⟨true, true, false⟩ rfl).2.2 rfl⟩

/-- Claim C8: the fallback copy path removes the transient textarea exactly
once in every execution, as its final DOM action, whether or not the copy
command throws; the container is appended and selected before the removal. -/
theorem fallback_always_removes_container (dot : String) (execCommandThrows : Bool) :
    (clipboardFallback dot execCommandThrows).1.count DomAction.removeChild = 1 ∧
    (clipboardFallback dot execCommandThrows).1.getLast? = some DomAction.removeChild ∧
    (clipboardFallback dot execCommandThrows).1
      = [DomAction.createTextarea, DomAction.setValue dot, DomAction.appendChild,
         DomAction.selectContents, DomAction.execCommandCopy, DomAction.removeChild] := by
  cases execCommandThrows <;> exact ⟨rfl, rfl, rfl⟩

lemma step_preserves_response (caps : Capabilities) (sess : Session) (e : Event)
    (h : ∀ s, e ≠ Event.msgQueryKnowledge s) :
    (step caps sess e).1.st.knowledgeQueryResponse
      = sess.st.knowledgeQueryResponse := by
  cases e with
  | clickGetRoutes => simp [step, getKnowledgeRoutes_state]
  | clickGenerateGraph => simp [step, generateRouteDotGraph_state]
  | typeInput s => rfl
  | clickQuery => simp [step, queryKnowledge_state]
  | msgGetRoutes r =>
    simp only [step]
    split <;> rfl
  | msgQueryKnowledge s => exact absurd rfl (h s)

lemma runTrace_preserves_response (caps : Capabilities) :
    ∀ (events : List Event) (sess : Session),
      (∀ s, Event.msgQueryKnowledge s ∉ events) →
      (runTrace caps sess events).1.st.knowledgeQueryResponse
        = sess.st.knowledgeQueryResponse := by
  intro events
  induction events with
  | nil => intro sess _; rfl
  | cons e es ih =>
    intro sess h
    have he : ∀ s, e ≠ Event.msgQueryKnowledge s := by
      intro s hs
      exact h s (hs ▸ List.mem_cons_self e es)
    have hes : ∀ s, Event.msgQueryKnowledge s ∉ es := by
      intro s hs
      exact h s (List.mem_cons_of_mem e hs)
    simp only [runTrace]
    rw [ih _ hes, step_preserves_response caps sess e he]

/-- Claim C9: `knowledgeQueryResponse` starts as the empty string (not an
absent value), stays empty along any trace in which no `query_knowledge`
response is delivered, and the response area renders it verbatim — so the
display shows the empty string before the first delivery. -/
theorem response_empty_before_first_delivery (caps : Capabilities)
    (events : List Event)
    (h : ∀ s, Event.msgQueryKnowledge s ∉ events) :
    initialState.knowledgeQueryResponse = "" ∧
    (∀ st : DashboardState, renderedResponse st = st.knowledgeQueryResponse) ∧
    renderedResponse (runTrace caps (mountEffect caps).1 events).1.st = "" := by
  refine ⟨rfl, fun st => rfl, ?_⟩
  show (runTrace caps (mountEffect caps).1 events).1.st.knowledgeQueryResponse = ""
  rw [runTrace_preserves_response caps events _ h, mountEffect_state]
  rfl

/-- Witness for C9: a full-capability session whose trace types a query,
submits it, and receives a routes response, but no query response. -/
theorem response_empty_before_first_delivery_witness :
    initialState.knowledgeQueryResponse = "" ∧
    (∀ st : DashboardState, renderedResponse st = st.knowledgeQueryResponse) ∧
    renderedResponse (runTrace ⟨true, true, true⟩ (mountEffect ⟨true, true, true⟩).1
        [Event.clickGetRoutes, Event.msgGetRoutes { explainer_routes := [] },
         Event.typeInput "/a", Event.clickQuery]).1.st = "" :=
  response_empty_before_first_delivery ⟨true, true, true⟩
    [Event.clickGetRoutes, Event.msgGetRoutes { explainer_routes := [] },
     Event.typeInput "/a", Event.clickQuery]
    (by intro s hs; simp at hs)

lemma step_preserves_input (caps : Capabilities) (sess : Session) (e : Event)
    (h : ∀ s, e ≠ Event.typeInput s) :
    (step caps sess e).1.st.knowledgeQueryInput
      = sess.st.knowledgeQueryInput := by
  cases e with
  | clickGetRoutes => simp [step, getKnowledgeRoutes_state]
  | clickGenerateGraph => simp [step, generateRouteDotGraph_state]
  | typeInput s => exact absurd rfl (h s)
  | clickQuery => simp [step, queryKnowledge_state]
  | msgGetRoutes r =>
    simp only [step]
    split <;> rfl
  | msgQueryKnowledge s =>
    simp only [step]
    split <;> rfl

/-- Claim C10: submitting a query leaves the whole component state — in
particular the stored input text — unchanged; the trimming shows up only in
the outgoing payload (the sent list is empty or carries the trimmed input);
every event other than a keystroke preserves the input text, and a keystroke
replaces it with the typed value. -/
theorem submit_never_modifies_input (caps : Capabilities) (sess : Session)
    (e : Event) (he : ∀ s, e ≠ Event.typeInput s) :
    (queryKnowledge caps sess.st).state = sess.st ∧
    ((queryKnowledge caps sess.st).sent = [] ∨
      (queryKnowledge caps sess.st).sent
        = [{ namespace_ := "knowledge_layer"
             action := "query_knowledge"
             payload := some (jsTrim sess.st.knowledgeQueryInput) }]) ∧
    (step caps sess e).1.st.knowledgeQueryInput = sess.st.knowledgeQueryInput ∧
    (∀ s, (step caps sess (Event.typeInput s)).1.st.knowledgeQueryInput = s) := by
  refine ⟨queryKnowledge_state caps sess.st, ?_,
    step_preserves_input caps sess e he, fun s => rfl⟩
  unfold queryKnowledge
  split
  · exact Or.inl rfl
  split
  · exact Or.inl rfl
  · exact Or.inr rfl

/-- Witness for C10: an untrimmed input ` /a/b ` survives a submit intact
while the payload carries the trimmed text, and a non-keystroke event
preserves it. -/
theorem submit_never_modifies_input_witness :
    (queryKnowledge ⟨true, true, true⟩
        { knowledgeQueryInput := " /a/b "
          knowledgeLayerRoutes := none
          knowledgeQueryResponse := "" }).state
      = { knowledgeQueryInput := " /a/b "
          knowledgeLayerRoutes := none
          knowledgeQueryResponse := "" } ∧
    (step ⟨true, true, true⟩
        { handlersRegistered := true
          st := { knowledgeQueryInput := " /a/b "
                  knowledgeLayerRoutes := none
                  knowledgeQueryResponse := "" } }
        Event.clickQuery).1.st.knowledgeQueryInput = " /a/b " := by
  have h := submit_never_modifies_input ⟨true, true, true⟩
    { handlersRegistered := true
      st := { knowledgeQueryInput := " /a/b "
              knowledgeLayerRoutes := none
              knowledgeQueryResponse := "" } }
    Event.clickQuery (fun s hs => Event.noConfusion hs)
  exact ⟨h.1, h.2.2.1⟩

end KnowledgeLayerDashboard
